import Mathlib

/-!
Verification of `pcse/fileinput/csvweatherdataprovider.py`.

The development shallowly embeds the CSV weather data provider: the header
translator, the per-field conversion table, the row-processing loop of
`_read_observations` with its exception handlers, the exec-based meta-header
loop of `_read_meta`, and the cache manager (`_find_cache_file`,
`_load_cache_file`, `_get_cache_filename`, and the cache branch of
`__init__`).

External collaborators (the Python builtins `float` and
`datetime.strptime`, and the physical formulas `angstrom` and
`reference_ET` from `pcse.util`) are modelled as value-level oracles: a
cell records the outcome of the two external parses, and the two formulas
are function parameters.  The code under test only wires their inputs and
outputs, which is exactly what is embedded.
-/

namespace PCSE

/-- Model of a Python float: either a finite value (as a rational) or NaN.
Infinities do not arise in the embedded code paths. -/
inductive PFloat where
| num (q : ℚ)
| nan
deriving DecidableEq, Repr

/-- Python multiplication on floats: NaN is absorbing. -/
def pyMul : PFloat → PFloat → PFloat
| .num a, .num b => .num (a * b)
| _, _ => .nan

/-- Python division on floats: NaN is absorbing.  In the embedded code the
divisor is always the literal 10, so the zero-divisor case never arises. -/
def pyDiv : PFloat → PFloat → PFloat
| .num a, .num b => .num (a / b)
| _, _ => .nan

/-- Python equality comparison on floats: NaN compares unequal to
everything, including NaN itself, so `x == float("NaN")` is always False. -/
def pyEq : PFloat → PFloat → Bool
| .num a, .num b => a == b
| _, _ => false

/-- Python strict order on floats: any comparison involving NaN is False. -/
def pyLt : PFloat → PFloat → Bool
| .num a, .num b => decide (a < b)
| _, _ => false

instance exceptDecEq {ε α : Type} [DecidableEq ε] [DecidableEq α] :
    DecidableEq (Except ε α) := fun a b =>
  match a, b with
  | .ok x, .ok y =>
    if h : x = y then .isTrue (by rw [h])
    else .isFalse (fun he => h (Except.ok.inj he))
  | .error x, .error y =>
    if h : x = y then .isTrue (by rw [h])
    else .isFalse (fun he => h (Except.error.inj he))
  | .ok _, .error _ => .isFalse (fun he => Except.noConfusion he)
  | .error _, .ok _ => .isFalse (fun he => Except.noConfusion he)

/-- One CSV cell, recorded through the outcomes of the two external parsers
applied to its text: `asFloat` is the result of the builtin `float(text)`
(error = ValueError), and `asDate` is the result of
`datetime.strptime(text, dateformat).date()` under the configured date
format (error = ValueError); a date is represented by a natural number. -/
structure Cell where
  asFloat : Except Unit PFloat
  asDate : Except Unit Nat
deriving DecidableEq, Repr

/-- A converted field value: a float or a calendar date. -/
inductive Value where
| vfloat (f : PFloat)
| vdate (d : Nat)
deriving DecidableEq, Repr

/-- The Python exceptions distinguished by `_read_observations`: ValueError
is caught per row, NoDataError is the providers own missing-data signal,
and `otherExc` stands for any other exception class (KeyError, TypeError,
PCSEError, ...), which no handler catches. -/
inductive PyExc where
| valueError
| noDataError
| otherExc
deriving DecidableEq, Repr

/-- The class attribute `translator`: canonical field name to the list of
accepted source column labels. -/
def translator : List (String × List String) :=
  [("DAY", ["w_date", "DAY"]),
   ("IRRAD", ["srad", "RADIATION", "IRRAD"]),
   ("TMIN", ["tmin", "TEMPERATURE_MIN", "TMIN"]),
   ("TMAX", ["tmax", "TEMPERATURE_MAX", "TMAX"]),
   ("VAP", ["vprs_tx", "VAPOURPRESSURE", "VAP"]),
   ("WIND", ["wind", "WINDSPEED", "WIND"]),
   ("RAIN", ["rain", "PRECIPITATION", "RAIN"]),
   ("SNOWDEPTH", ["snowdepth", "SNOWDEPTH"])]

/-- Translation of one header item: the join of every canonical key whose
alias list contains the item (the generator expression
`join(key for key, value in translator.items() if item in value)`).
Since the alias lists are pairwise disjoint this is the canonical name, or
the empty string when no alias matches. -/
def translateItem (item : String) : String :=
  String.join (translator.filterMap
    (fun kv => if item ∈ kv.2 then some kv.1 else none))

/-- Translation of the header row, one item at a time. -/
def translateHeader (header : List String) : List String :=
  header.map translateItem

/-- Conversion `NoConversion = lambda x: float(x)`. -/
def NoConversion (x : Cell) : Except Unit Value :=
  x.asFloat.map Value.vfloat

/-- Conversion `kJ_to_J = lambda x: float(x)*1000.`. -/
def kJ_to_J (x : Cell) : Except Unit Value :=
  x.asFloat.map (fun v => Value.vfloat (pyMul v (.num 1000)))

/-- Conversion `mm_to_cm = lambda x: float(x)/10.`. -/
def mm_to_cm (x : Cell) : Except Unit Value :=
  x.asFloat.map (fun v => Value.vfloat (pyDiv v (.num 10)))

/-- Conversion `csvdate_to_date = lambda x, dateformat: strptime(...)`; the
configured date format is absorbed into the `asDate` view of the cell. -/
def csvdate_to_date (x : Cell) : Except Unit Value :=
  x.asDate.map Value.vdate

/-- The class attribute `obs_conversions`, keyed by canonical field name. -/
def obs_conversions : List (String × (Cell → Except Unit Value)) :=
  [("TMAX", NoConversion),
   ("TMIN", NoConversion),
   ("IRRAD", kJ_to_J),
   ("DAY", csvdate_to_date),
   ("VAP", NoConversion),
   ("WIND", NoConversion),
   ("RAIN", mm_to_cm),
   ("SNOWDEPTH", NoConversion)]

/-- Insertion into a Python dict modelled as an association list with
unique keys: an existing key is updated in place, a new key is appended. -/
def dictSetCell : List (String × Cell) → String → Cell → List (String × Cell)
| [], k, v => [(k, v)]
| (k0, v0) :: rest, k, v =>
  if k0 = k then (k, v) :: rest else (k0, v0) :: dictSetCell rest k v

/-- The expression `dict(zip(header, row))`: zip truncates to the shorter
list, and a repeated key keeps the position of its first occurrence while
taking the last value. -/
def dictOfZip (header : List String) (row : List Cell) : List (String × Cell) :=
  (List.zip header row).foldl (fun d kc => dictSetCell d kc.1 kc.2) []

/-- The statement `if "" in d: del d[""]`, removing the entry whose key is
the empty string (untranslatable columns). -/
def delEmpty (d : List (String × Cell)) : List (String × Cell) :=
  d.filter (fun kc => kc.1 ≠ "")

/-- Update of a converted dict, with Python dict semantics. -/
def dictSet : List (String × Value) → String → Value → List (String × Value)
| [], k, v => [(k, v)]
| (k0, v0) :: rest, k, v =>
  if k0 = k then (k, v) :: rest else (k0, v0) :: dictSet rest k v

/-- Lookup in a Python dict modelled as an association list (the
subscript operation `d[k]`, with `none` standing for a KeyError). -/
def alistGet {α : Type} : List (String × α) → String → Option α
| [], _ => none
| (k, a) :: rest, k0 => if k = k0 then some a else alistGet rest k0

/-- The test `d[label] == float("NaN")` performed on a converted value.
For a float it is the Python float comparison against NaN (always False);
for a date Python compares a date with a float, which is also False. -/
def valueEqNaN : Value → Bool
| .vfloat f => pyEq f .nan
| .vdate _ => false

/-- Conversion of one labelled cell, as performed inside the loop
`for label in d.keys()`: look the label up in `obs_conversions` (a missing
key would be a KeyError), call the conversion (with the date format for
DAY), and surface a parse failure as ValueError. -/
def convertCell (label : String) (c : Cell) : Except PyExc Value :=
  match alistGet obs_conversions label with
  | none => .error .otherExc
  | some func =>
    match (if label = "DAY" then csvdate_to_date c else func c) with
    | .ok v => .ok v
    | .error _ => .error .valueError

/-- The conversion loop over `d.keys()`: convert each field in dict order,
and after each conversion run the check
`if d[label] == float("NaN") and label != "SNOWDEPTH": raise NoDataError`. -/
def convertLabels : List (String × Cell) → Except PyExc (List (String × Value))
| [] => .ok []
| (label, c) :: rest =>
  match convertCell label c with
  | .error e => .error e
  | .ok v =>
    if valueEqNaN v && label ≠ "SNOWDEPTH" then
      .error .noDataError
    else
      match convertLabels rest with
      | .error e => .error e
      | .ok vs => .ok ((label, v) :: vs)

/-- The station state set up by `__init__` and `_read_meta` and used by
`_read_observations`: latitude, longitude, elevation, the checked Angstrom
coefficients, the sunshine flag, and the stored (but otherwise unused)
`ETmodel` constructor parameter. -/
structure Meta where
  latitude : PFloat
  longitude : PFloat
  elevation : PFloat
  angstA : PFloat
  angstB : PFloat
  has_sunshine : Bool
  ETmodel : String

/-- The exact keyword arguments of the call
`reference_ET(LAT=self.latitude, ELEV=self.elevation, ANGSTA=self.angstA,
ANGSTB=self.angstB, **d)`: the four station keywords plus the converted row
dict expanded as keyword arguments.  No other argument is passed. -/
structure RefETCall where
  LAT : PFloat
  ELEV : PFloat
  ANGSTA : PFloat
  ANGSTB : PFloat
  kwargs : List (String × Value)
deriving DecidableEq, Repr

/-- Construction of the `reference_ET` argument list from the station state
and the converted row dict, exactly as written at the call site. -/
def buildRefETCall (st : Meta) (d : List (String × Value)) : RefETCall :=
  { LAT := st.latitude, ELEV := st.elevation,
    ANGSTA := st.angstA, ANGSTB := st.angstB, kwargs := d }

/-- The two external physical formulas, as oracles: `angstrom` receives
(day, latitude, sunshine hours, angstA, angstB) and `reference_ET` receives
its keyword arguments; either may raise any exception. -/
structure Externals where
  angstrom : Value → PFloat → PFloat → PFloat → PFloat → Except PyExc PFloat
  reference_ET : RefETCall → Except PyExc (PFloat × PFloat × PFloat)

/-- The block
`if self.has_sunshine is True and 0 < d["IRRAD"] < 24: d["IRRAD"] = angstrom(...)`.
When the flag is False the chained comparison is never evaluated
(short-circuit), so no dict lookup happens.  When it is True, a missing
IRRAD key is a KeyError, comparing a date against 0 is a TypeError, and the
chained comparison on a float uses Python float comparison (False on NaN).
Inside the branch, `d["DAY"]` is read for the angstrom call (KeyError when
absent) and the result is assigned back to IRRAD. -/
def sunshineCorrect (st : Meta) (ext : Externals) (d : List (String × Value)) :
    Except PyExc (List (String × Value)) :=
  if st.has_sunshine then
    match alistGet d "IRRAD" with
    | none => .error .otherExc
    | some (.vdate _) => .error .otherExc
    | some (.vfloat f) =>
      if pyLt (.num 0) f && pyLt f (.num 24) then
        match alistGet d "DAY" with
        | none => .error .otherExc
        | some day =>
          match ext.angstrom day st.latitude f st.angstA st.angstB with
          | .error e => .error e
          | .ok r => .ok (dictSet d "IRRAD" (.vfloat r))
      else .ok d
  else .ok d

/-- The stored observation.  Modelled from the spec: `WeatherDataContainer`
is defined in `pcse.base_classes`, outside the given sources; per the spec
a stored observation is the derived record combined with the station
latitude, longitude and elevation. -/
structure WeatherDataContainer where
  LAT : PFloat
  LON : PFloat
  ELEV : PFloat
  fields : List (String × Value)
deriving DecidableEq, Repr

/-- Processing of one data row inside the `try` block: build the dict from
the translated header, delete the empty-label entry, run the conversion
loop, apply the sunshine correction, call `reference_ET`, store E0, ES0,
ET0 divided by 10, build the container and key it by `d["DAY"]` (a missing
DAY key at that point is a KeyError). -/
def processRow (st : Meta) (ext : Externals) (header : List String)
    (row : List Cell) : Except PyExc (Value × WeatherDataContainer) :=
  match convertLabels (delEmpty (dictOfZip header row)) with
  | .error e => .error e
  | .ok d1 =>
    match sunshineCorrect st ext d1 with
    | .error e => .error e
    | .ok d2 =>
      match ext.reference_ET (buildRefETCall st d2) with
      | .error e => .error e
      | .ok (e0, es0, et0) =>
        match dictSet (dictSet (dictSet d2
            "E0" (.vfloat (pyDiv e0 (.num 10))))
            "ES0" (.vfloat (pyDiv es0 (.num 10))))
            "ET0" (.vfloat (pyDiv et0 (.num 10))) with
        | d3 =>
          match alistGet d3 "DAY" with
          | none => .error .otherExc
          | some day =>
            .ok (day, { LAT := st.latitude, LON := st.longitude,
                        ELEV := st.elevation, fields := d3 })

/-- The data-row loop of `_read_observations` with its two handlers: a
ValueError is caught (warning, continue with the next row); a NoDataError
reaches its handler, but the handler formats its message with the invalid
conversion specifier "%S", so building the message itself raises a fresh
ValueError outside the `try`, which aborts the loop; any other exception
propagates and aborts the loop.  The result is the list of stored
(date key, container) pairs in row order. -/
def readObsRows (st : Meta) (ext : Externals) (header : List String) :
    List (List Cell) → Except PyExc (List (Value × WeatherDataContainer))
| [] => .ok []
| row :: rest =>
  match processRow st ext header row with
  | .ok kv =>
    match readObsRows st ext header rest with
    | .error e => .error e
    | .ok s => .ok (kv :: s)
  | .error .valueError => readObsRows st ext header rest
  | .error .noDataError => .error .valueError
  | .error e => .error e

/-- A CSV file after the meta-header: the header row of column labels and
the data rows (the `_headerrow` flag of the source routes the first row to
header translation and all later rows to record parsing). -/
structure CSVFile where
  header : List String
  rows : List (List Cell)

/-- The whole of `_read_observations`: translate the header row in place,
then run the data-row loop. -/
def read_observations (st : Meta) (ext : Externals) (f : CSVFile) :
    Except PyExc (List (Value × WeatherDataContainer)) :=
  readObsRows st ext (translateHeader f.header) f.rows

/-- The sentinel that terminates the meta-header loop. -/
def metaSentinel : String := "## Daily weather data"

/-- Model of the Python string method startswith: prefix test on the
character sequences. -/
def pyStartsWith (s pre : String) : Bool :=
  List.isPrefixOf pre.data s.data

/-- The file lines strictly before the sentinel line, or `none` when the
sentinel never appears (in the source, `readline` then returns empty
strings until the 30-second wall clock expires and a RuntimeError is
raised; the wall clock itself is outside the embedding). -/
def linesBeforeSentinel : List String → Option (List String)
| [] => none
| l :: ls =>
  if pyStartsWith l metaSentinel then some []
  else (linesBeforeSentinel ls).map (l :: ·)

/-- The sequence of strings passed to `exec` by the `_read_meta` loop, in
order.  The loop variable starts as the empty string and each iteration
first calls `exec(line)` and then reads the next line, so the trace is the
empty string followed by every line before the sentinel, whatever its
content: no line is validated or rejected before being executed. -/
def read_meta_exec_trace (fileLines : List String) : Option (List String) :=
  (linesBeforeSentinel fileLines).map (fun ls => "" :: ls)

/-- The character used by `os.path.basename` to split off the directory. -/
def pathSep : Char := '/'

/-- Model of `os.path.basename`: the suffix after the last slash. -/
def basename (p : String) : String :=
  String.mk ((p.data.reverse.takeWhile (fun c => c ≠ pathSep)).reverse)

/-- Model of `os.path.splitext` on a basename: split at the last dot,
except that a name consisting only of leading dots before that dot (such
as a dotfile) is not split. -/
def splitext (b : String) : String × String :=
  match (b.data.reverse.takeWhile (fun c => c ≠ '.')).length,
        b.data.contains '.' with
  | extLen, true =>
    let cut := b.data.length - (extLen + 1)
    if (b.data.take cut).all (fun c => c = '.') then (b, "")
    else (String.mk (b.data.take cut), String.mk (b.data.drop cut))
  | _, false => (b, "")

/-- The method `_get_cache_filename`: the cache file name is
`ClassName_stem.cache` inside the configured cache directory, where the
stem is the basename of the source path with its extension stripped.
`os.path.join` of a directory and a relative name is modelled as
concatenation with a slash. -/
def get_cache_filename (className cacheDir csv_fname : String) : String :=
  let bn := basename csv_fname
  let fe := splitext bn
  cacheDir ++ "/" ++ (className ++ "_" ++ fe.1 ++ ".cache")

/-- A snapshot of the observation store, as restored by `_load`. -/
def Store : Type := List (Value × WeatherDataContainer)

/-- The method `_find_cache_file`: compute the cache file name; if a file
exists there and its modification time is strictly greater than the source
file modification time, return the cache file name, else None.  The file
system is a map from path to optional modification time (`none` means the
path does not exist). -/
def find_cache_file (mtime : String → Option Nat)
    (className cacheDir csv_fname : String) : Option String :=
  let cache_filename := get_cache_filename className cacheDir csv_fname
  match mtime cache_filename, mtime csv_fname with
  | some cache_date, some csv_date =>
    if cache_date > csv_date then some cache_filename else none
  | _, _ => none

/-- The method `_load_cache_file`: when `_find_cache_file` returns None the
method returns False (modelled as `ok none`); otherwise `_load` runs with
no exception handling around it, so a load failure propagates, and on
success the method returns True with the restored store. -/
def load_cache_file (mtime : String → Option Nat)
    (className cacheDir csv_fname : String)
    (load : String → Except PyExc Store) : Except PyExc (Option Store) :=
  match find_cache_file mtime className cacheDir csv_fname with
  | none => .ok none
  | some cache_filename =>
    match load cache_filename with
    | .error e => .error e
    | .ok s => .ok (some s)

/-- How construction obtained the observation store. -/
inductive InitOutcome where
| fromCache (s : Store)
| parsed (s : Store)

/-- The constructor `__init__` after argument storage: fail when the source
file does not exist (PCSEError); otherwise try the cache, and only when
`_load_cache_file` returns False fall through to `_read_meta` (whose
exec-based loop is modelled by `read_meta_exec_trace` and whose resulting
station state is `st`) and `_read_observations`, followed by
`_write_cache_file` whose failures are warnings only. -/
def csvInit (mtime : String → Option Nat)
    (className cacheDir csv_fname : String)
    (load : String → Except PyExc Store)
    (st : Meta) (ext : Externals) (f : CSVFile) : Except PyExc InitOutcome :=
  if (mtime csv_fname).isNone then .error .otherExc
  else
    match load_cache_file mtime className cacheDir csv_fname load with
    | .error e => .error e
    | .ok (some s) => .ok (.fromCache s)
    | .ok none =>
      match read_observations st ext f with
      | .error e => .error e
      | .ok s => .ok (.parsed s)

/-- The fixed set of canonical field names (the keys of `translator` and of
`obs_conversions`). -/
def canonicalLabels : List String :=
  ["DAY", "IRRAD", "TMIN", "TMAX", "VAP", "WIND", "RAIN", "SNOWDEPTH"]

/-- Station state with the sunshine flag off. -/
def stNoSun : Meta :=
  { latitude := .num 52, longitude := .num 5, elevation := .num 10,
    angstA := .num (1/4), angstB := .num (1/2),
    has_sunshine := false, ETmodel := "PM" }

/-- Station state with the sunshine flag on. -/
def stSun : Meta := { stNoSun with has_sunshine := true }

/-- Well-behaved external formulas: the Angstrom correction always returns
777 and the reference evapotranspiration always returns (10, 20, 30). -/
def extOK : Externals :=
  { angstrom := fun _ _ _ _ _ => .ok (.num 777),
    reference_ET := fun _ => .ok (.num 10, .num 20, .num 30) }

/-- External formulas where `reference_ET` raises an exception that is not
a ValueError (a KeyError, say). -/
def extETOther : Externals :=
  { extOK with reference_ET := fun _ => .error .otherExc }

/-- External formulas where `reference_ET` raises a ValueError. -/
def extETValue : Externals :=
  { extOK with reference_ET := fun _ => .error .valueError }

/-- External formulas whose results are NaN, as a numerical library may
well produce on NaN inputs: the code stores them without complaint. -/
def extNaN : Externals :=
  { angstrom := fun _ _ _ _ _ => .ok .nan,
    reference_ET := fun _ => .ok (.nan, .nan, .nan) }

/-- A cell in date format: parses as a date (and, numerals being numerals,
also as a float), never needed as a float by the code. -/
def dayCell (n : Nat) : Cell := { asFloat := .ok (.num n), asDate := .ok n }

/-- A plain numeric cell, not in date format. -/
def numCell (q : ℚ) : Cell := { asFloat := .ok (.num q), asDate := .error () }

/-- The cell text "nan": the builtin float parses it to NaN, the date
parser rejects it. -/
def nanCell : Cell := { asFloat := .ok .nan, asDate := .error () }

/-- A cell that neither parser accepts, such as the text "notadate". -/
def badDateCell : Cell := { asFloat := .error (), asDate := .error () }

/-- A file system with no cache artifact: only the source file exists. -/
def mtimeNoCache : String → Option Nat :=
  fun p => if p = "/data/w.csv" then some 5 else none

/-- A file system where the derived cache artifact exists and is strictly
newer (mtime 9) than the source file (mtime 5). -/
def mtimeFreshCache : String → Option Nat :=
  fun p =>
    if p = "/data/w.csv" then some 5
    else if p = "/cache/CSVWeatherDataProvider_w.cache" then some 9
    else none

/-- A cache loader that fails with a deserialization error. -/
def loadOther : String → Except PyExc Store := fun _ => .error .otherExc

/-- A two-row data file: 2010-01-01 with TMIN 2 and 2010-01-02 with
TMIN 3. -/
def fileTwo : CSVFile :=
  { header := ["DAY", "TMIN"],
    rows := [[dayCell 20100101, numCell 2], [dayCell 20100102, numCell 3]] }

/-- External formulas whose Angstrom correction returns the recognizable
value 777, with NaN evapotranspiration results. -/
def extAng777 : Externals :=
  { angstrom := fun _ _ _ _ _ => .ok (.num 777),
    reference_ET := fun _ => .ok (.nan, .nan, .nan) }

/-- A file system where the source file has been touched after the cache
write: both source and cache artifact carry modification time 9, so the
cache is no longer strictly newer. -/
def mtimeStale : String → Option Nat :=
  fun p =>
    if p = "/data/w.csv" then some 9
    else if p = "/cache/CSVWeatherDataProvider_w.cache" then some 9
    else none

lemma translateItem_cases (item : String) :
    translateItem item = "" ∨ translateItem item ∈ canonicalLabels := by
  by_cases h1 : item ∈ ["w_date", "DAY"]
  · fin_cases h1 <;> decide
  by_cases h2 : item ∈ ["srad", "RADIATION", "IRRAD"]
  · fin_cases h2 <;> decide
  by_cases h3 : item ∈ ["tmin", "TEMPERATURE_MIN", "TMIN"]
  · fin_cases h3 <;> decide
  by_cases h4 : item ∈ ["tmax", "TEMPERATURE_MAX", "TMAX"]
  · fin_cases h4 <;> decide
  by_cases h5 : item ∈ ["vprs_tx", "VAPOURPRESSURE", "VAP"]
  · fin_cases h5 <;> decide
  by_cases h6 : item ∈ ["wind", "WINDSPEED", "WIND"]
  · fin_cases h6 <;> decide
  by_cases h7 : item ∈ ["rain", "PRECIPITATION", "RAIN"]
  · fin_cases h7 <;> decide
  by_cases h8 : item ∈ ["snowdepth", "SNOWDEPTH"]
  · fin_cases h8 <;> decide
  left
  simp [translateItem, translator, List.filterMap, h1, h2, h3, h4, h5, h6, h7, h8]
  rfl

lemma dictSetCell_mem (d : List (String × Cell)) (k : String) (v : Cell) :
    ∀ k0 v0, (k0, v0) ∈ dictSetCell d k v → (k0, v0) ∈ d ∨ k0 = k := by
  induction d with
  | nil =>
    intro k0 v0 h
    simp [dictSetCell] at h
    exact Or.inr h.1
  | cons kc rest ih =>
    intro k0 v0 h
    rw [dictSetCell] at h
    by_cases hk : kc.1 = k
    · rw [if_pos hk] at h
      rcases List.mem_cons.mp h with h | h
      · exact Or.inr (congrArg Prod.fst h)
      · exact Or.inl (List.mem_cons_of_mem _ h)
    · rw [if_neg hk] at h
      rcases List.mem_cons.mp h with h | h
      · exact Or.inl (h ▸ List.mem_cons_self _ _)
      · rcases ih k0 v0 h with h | h
        · exact Or.inl (List.mem_cons_of_mem _ h)
        · exact Or.inr h

lemma dictOfZip_mem_keys (header : List String) (row : List Cell)
    (k : String) (v : Cell) (h : (k, v) ∈ dictOfZip header row) : k ∈ header := by
  have aux : ∀ (ps : List (String × Cell)) (d0 : List (String × Cell)),
      (k, v) ∈ List.foldl (fun d kc => dictSetCell d kc.1 kc.2) d0 ps →
      (k, v) ∈ d0 ∨ ∃ c, (k, c) ∈ ps := by
    intro ps
    induction ps with
    | nil => intro d0 h0; exact Or.inl h0
    | cons p ps ih =>
      intro d0 h0
      rcases ih _ h0 with h0 | ⟨c, hc⟩
      · rcases dictSetCell_mem d0 p.1 p.2 k v h0 with h0 | h0
        · exact Or.inl h0
        · exact Or.inr ⟨p.2, by rw [h0]; exact List.mem_cons_self _ _⟩
      · exact Or.inr ⟨c, List.mem_cons_of_mem _ hc⟩
  rcases aux (List.zip header row) [] h with h0 | ⟨c, hc⟩
  · cases h0
  · exact (List.of_mem_zip hc).1

lemma valueEqNaN_false (v : Value) : valueEqNaN v = false := by
  cases v with
  | vfloat f => cases f <;> rfl
  | vdate d => rfl

lemma matchVE_error {X : Except Unit Value} {e : PyExc}
    (h : (match X with
          | .ok v => Except.ok v
          | .error _ => Except.error PyExc.valueError) = .error e) :
    e = .valueError := by
  cases X with
  | ok v => cases h
  | error u => cases h; rfl

lemma convertCell_error (k : String) (c : Cell) (e : PyExc)
    (hk : k ∈ canonicalLabels) (h : convertCell k c = .error e) :
    e = .valueError := by
  fin_cases hk <;> exact matchVE_error h

lemma convertLabels_day_fail (d : List (String × Cell)) (c : Cell)
    (hlab : ∀ kc ∈ d, kc.1 ∈ canonicalLabels)
    (hday : ("DAY", c) ∈ d) (hfail : c.asDate = .error ()) :
    convertLabels d = .error .valueError := by
  induction d with
  | nil => cases hday
  | cons kc rest ih =>
    rw [convertLabels]
    cases hcv : convertCell kc.1 kc.2 with
    | error e =>
      have := convertCell_error kc.1 kc.2 e (hlab kc (List.mem_cons_self _ _)) hcv
      rw [this]
    | ok v =>
      have hrest : ("DAY", c) ∈ rest := by
        rcases List.mem_cons.mp hday with h | h
        · exfalso
          rw [← h] at hcv
          rw [show convertCell "DAY" c = (match csvdate_to_date c with
                | .ok v => Except.ok v
                | .error _ => Except.error PyExc.valueError) from rfl] at hcv
          rw [csvdate_to_date, hfail] at hcv
          cases hcv
        · exact h
      have hih := ih (fun kc h0 => hlab kc (List.mem_cons_of_mem _ h0)) hrest
      simp only [valueEqNaN_false, Bool.false_and, Bool.false_eq_true, if_false,
        ite_false, hih]


/-- Claim C1: a data row in which a field other than SNOWDEPTH parses to
NaN is supposed to raise the missing-data condition and be skipped.  The
code compares the converted value with `float("NaN")` using `==`, which is
always False in Python, so the NoDataError is never raised: a row whose
TMIN cell parses to NaN is converted, passed to the external calls, and
stored with TMIN = NaN.  This theorem evaluates the row loop at such a row
and shows the row is stored rather than skipped. -/
theorem c1_nan_row_is_stored :
    read_observations stNoSun extNaN
      { header := ["DAY", "TMIN"], rows := [[dayCell 20100101, nanCell]] } =
    .ok [(.vdate 20100101,
          { LAT := .num 52, LON := .num 5, ELEV := .num 10,
            fields := [("DAY", .vdate 20100101), ("TMIN", .vfloat .nan),
                       ("E0", .vfloat .nan), ("ES0", .vfloat .nan),
                       ("ET0", .vfloat .nan)] })] := by
  rfl

/-- Claim C2, counterexample: an exception raised by the external
reference-evapotranspiration call that is not a ValueError (here a
KeyError-like exception) is caught by no handler of `_read_observations`:
on a two-row file with no cache artifact, construction aborts with that
exception instead of skipping the row and continuing. -/
theorem c2_external_exception_aborts :
    csvInit mtimeNoCache "CSVWeatherDataProvider" "/cache" "/data/w.csv"
      loadOther stNoSun extETOther fileTwo = .error .otherExc := by
  rfl

/-- Claim C2, amended: only a ValueError raised during processing of a row
(in particular by the external Angstrom or reference-evapotranspiration
call) is handled as a row-level failure, with the remaining rows processed
as if the row were absent; an exception of any other class propagates and
aborts the loop. -/
theorem c2_only_valueerror_is_rowlevel (st : Meta) (ext : Externals)
    (header : List String) (r : List Cell) (rest : List (List Cell)) :
    (processRow st ext header r = .error .valueError →
      readObsRows st ext header (r :: rest) = readObsRows st ext header rest)
    ∧ (processRow st ext header r = .error .otherExc →
      readObsRows st ext header (r :: rest) = .error .otherExc) := by
  constructor <;> intro h <;> simp [readObsRows, h]

/-- Witness for the amended claim C2, at a concrete two-row file: a
ValueError from the external call skips only the offending row, while a
KeyError-like exception aborts the loop. -/
theorem c2_only_valueerror_is_rowlevel_w :
    (readObsRows stNoSun extETValue ["DAY", "TMIN"]
        [[dayCell 20100101, numCell 2], [dayCell 20100102, numCell 3]] =
      readObsRows stNoSun extETValue ["DAY", "TMIN"]
        [[dayCell 20100102, numCell 3]])
    ∧ readObsRows stNoSun extETOther ["DAY", "TMIN"]
        [[dayCell 20100101, numCell 2], [dayCell 20100102, numCell 3]] =
      .error .otherExc :=
  ⟨(c2_only_valueerror_is_rowlevel stNoSun extETValue ["DAY", "TMIN"]
      [dayCell 20100101, numCell 2] [[dayCell 20100102, numCell 3]]).1 rfl,
   (c2_only_valueerror_is_rowlevel stNoSun extETOther ["DAY", "TMIN"]
      [dayCell 20100101, numCell 2] [[dayCell 20100102, numCell 3]]).2 rfl⟩

/-- Claim C3, counterexample: the cache artifact exists and is strictly
newer than the source file, but loading it fails; `_load_cache_file` wraps
`_load` in no exception handler, so the failure propagates out of the
constructor instead of falling through to a re-parse. -/
theorem c3_cache_load_failure_propagates :
    csvInit mtimeFreshCache "CSVWeatherDataProvider" "/cache" "/data/w.csv"
      loadOther stNoSun extOK fileTwo = .error .otherExc := by
  rfl

/-- Helper: when `_find_cache_file` returns a path, the source file was
stat-ed successfully, so its modification time is present. -/
lemma find_cache_file_csv_exists (mtime : String → Option Nat)
    (className cacheDir csv cf : String)
    (h : find_cache_file mtime className cacheDir csv = some cf) :
    (mtime csv).isSome := by
  simp only [find_cache_file] at h
  cases hc : mtime (get_cache_filename className cacheDir csv) <;> rw [hc] at h
  · cases h
  · cases hs : mtime csv <;> rw [hs] at h
    · cases h
    · rfl

/-- Claim C3, amended: when a valid (existing and strictly newer) cache
artifact is found, any error raised while loading it propagates out of
construction; the fall-through to a full re-parse happens exactly when no
valid cache artifact is found. -/
theorem c3_load_error_propagates (mtime : String → Option Nat)
    (className cacheDir csv : String) (load : String → Except PyExc Store)
    (st : Meta) (ext : Externals) (f : CSVFile) :
    (∀ cf e, find_cache_file mtime className cacheDir csv = some cf →
      load cf = .error e →
      csvInit mtime className cacheDir csv load st ext f = .error e)
    ∧ (find_cache_file mtime className cacheDir csv = none →
      (mtime csv).isSome →
      csvInit mtime className cacheDir csv load st ext f =
        Except.map InitOutcome.parsed (read_observations st ext f)) := by
  constructor
  · intro cf e hf hl
    obtain ⟨sd, hs⟩ := Option.isSome_iff_exists.mp
      (find_cache_file_csv_exists mtime className cacheDir csv cf hf)
    simp [csvInit, load_cache_file, hf, hl, hs]
  · intro hf hcsv
    obtain ⟨sd, hs⟩ := Option.isSome_iff_exists.mp hcsv
    cases hro : read_observations st ext f <;>
      simp [csvInit, load_cache_file, hf, hs, hro, Except.map]

/-- Witness for the amended claim C3: with a fresh cache artifact and a
failing loader the error comes out of construction; with no cache artifact
the result is the parsed store. -/
theorem c3_load_error_propagates_w :
    csvInit mtimeFreshCache "CSVWeatherDataProvider" "/cache" "/data/w.csv"
      loadOther stSun extOK fileTwo = .error .otherExc
    ∧ csvInit mtimeNoCache "CSVWeatherDataProvider" "/cache" "/data/w.csv"
        loadOther stNoSun extOK fileTwo =
      Except.map InitOutcome.parsed (read_observations stNoSun extOK fileTwo) :=
  ⟨(c3_load_error_propagates mtimeFreshCache "CSVWeatherDataProvider" "/cache"
      "/data/w.csv" loadOther stSun extOK fileTwo).1
      "/cache/CSVWeatherDataProvider_w.cache" .otherExc rfl rfl,
   (c3_load_error_propagates mtimeNoCache "CSVWeatherDataProvider" "/cache"
      "/data/w.csv" loadOther stNoSun extOK fileTwo).2 rfl rfl⟩

/-- Claim C4: the ETmodel constructor parameter is stored on the provider
but never forwarded: the `reference_ET` call passes exactly LAT, ELEV,
ANGSTA, ANGSTB and the row fields, so both the argument structure handed
to the external calculator and the whole row processing are invariant
under the ETmodel selector, contradicting the claimed pass-through. -/
theorem c4_etmodel_never_forwarded (st : Meta) (d : List (String × Value))
    (ext : Externals) (header : List String) (r : List Cell)
    (m1 m2 : String) :
    buildRefETCall { st with ETmodel := m1 } d =
      buildRefETCall { st with ETmodel := m2 } d
    ∧ processRow { st with ETmodel := m1 } ext header r =
      processRow { st with ETmodel := m2 } ext header r :=
  ⟨rfl, rfl⟩

/-- Claim C6: the meta-header loop hands every line before the sentinel to
the Python `exec` builtin, unvalidated: on a file whose first header line
is `import os`, the executed-line trace contains that line (preceded by
the initial empty string the loop starts from).  Nothing restricts header
lines to a `Key = value` grammar. -/
theorem c6_header_line_reaches_exec :
    read_meta_exec_trace ["import os", "## Daily weather data"] =
      some ["", "import os"] := by
  rfl

/-- Claim C10: the derived cache file name factors through the source
basename with its extension stripped; the directory part of the source
path is discarded, so same-named files in different directories share one
cache artifact. -/
theorem c10_cache_name_ignores_directory (className cacheDir p1 p2 : String)
    (h : (splitext (basename p1)).1 = (splitext (basename p2)).1) :
    get_cache_filename className cacheDir p1 =
      get_cache_filename className cacheDir p2 := by
  simp only [get_cache_filename, h]

/-- Witness for claim C10: two distinct paths with the same base name get
the same cache file name. -/
theorem c10_cache_name_ignores_directory_w :
    get_cache_filename "CSVWeatherDataProvider" "/cache" "/a/data.csv" =
      get_cache_filename "CSVWeatherDataProvider" "/cache" "/b/data.csv" :=
  c10_cache_name_ignores_directory "CSVWeatherDataProvider" "/cache"
    "/a/data.csv" "/b/data.csv" rfl

/-- Claim C7: `_find_cache_file` succeeds exactly when the derived cache
artifact exists and its modification time is strictly newer than the
source file modification time; consequently, once the source has been
touched so that the cache is no longer strictly newer, construction
bypasses the cache and re-parses the source file. -/
theorem c7_cache_valid_iff_strictly_newer (mtime : String → Option Nat)
    (className cacheDir csv : String) (load : String → Except PyExc Store)
    (st : Meta) (ext : Externals) (f : CSVFile) :
    ((find_cache_file mtime className cacheDir csv).isSome ↔
      ∃ cd sd, mtime (get_cache_filename className cacheDir csv) = some cd ∧
        mtime csv = some sd ∧ sd < cd)
    ∧ (∀ cd sd s, mtime (get_cache_filename className cacheDir csv) = some cd →
        mtime csv = some sd → cd ≤ sd →
        read_observations st ext f = .ok s →
        csvInit mtime className cacheDir csv load st ext f = .ok (.parsed s)) := by
  constructor
  · simp only [find_cache_file]
    cases hc : mtime (get_cache_filename className cacheDir csv) with
    | none => simp
    | some cd =>
      cases hs : mtime csv with
      | none => simp
      | some sd =>
        by_cases hlt : cd > sd
        · simp [hlt]
        · simp [hlt, not_lt.mp hlt]
  · intro cd sd s hc hs hle hro
    have hnot : ¬ (cd > sd) := not_lt.mpr hle
    simp [csvInit, load_cache_file, find_cache_file, hc, hs, hnot, hro]

/-- Witness for claim C7: source and cache artifact both at modification
time 9 (source touched after the cache write), so the provider re-parses
the two-row file instead of loading the cache. -/
theorem c7_cache_valid_iff_strictly_newer_w :
    csvInit mtimeStale "CSVWeatherDataProvider" "/cache" "/data/w.csv"
      loadOther stNoSun extNaN fileTwo =
    .ok (.parsed
      [(.vdate 20100101,
        { LAT := .num 52, LON := .num 5, ELEV := .num 10,
          fields := [("DAY", .vdate 20100101), ("TMIN", .vfloat (.num 2)),
                     ("E0", .vfloat .nan), ("ES0", .vfloat .nan),
                     ("ET0", .vfloat .nan)] }),
       (.vdate 20100102,
        { LAT := .num 52, LON := .num 5, ELEV := .num 10,
          fields := [("DAY", .vdate 20100102), ("TMIN", .vfloat (.num 3)),
                     ("E0", .vfloat .nan), ("ES0", .vfloat .nan),
                     ("ET0", .vfloat .nan)] })]) :=
  (c7_cache_valid_iff_strictly_newer mtimeStale "CSVWeatherDataProvider"
    "/cache" "/data/w.csv" loadOther stNoSun extNaN fileTwo).2
    9 9 _ rfl rfl (Nat.le_refl 9) rfl

/-- Claim C8: the per-field conversions are exactly as specified: DAY is
parsed with the configured date format, IRRAD is the parsed float
multiplied by 1000, RAIN is the parsed float divided by 10, and TMIN,
TMAX, VAP, WIND, SNOWDEPTH are the parsed float unchanged. -/
theorem c8_fixed_field_conversions (c : Cell) (q : ℚ) (n : Nat) :
    (c.asDate = .ok n → convertCell "DAY" c = .ok (.vdate n))
    ∧ (c.asFloat = .ok (.num q) →
        convertCell "IRRAD" c = .ok (.vfloat (.num (q * 1000)))
        ∧ convertCell "RAIN" c = .ok (.vfloat (.num (q / 10)))
        ∧ convertCell "TMIN" c = .ok (.vfloat (.num q))
        ∧ convertCell "TMAX" c = .ok (.vfloat (.num q))
        ∧ convertCell "VAP" c = .ok (.vfloat (.num q))
        ∧ convertCell "WIND" c = .ok (.vfloat (.num q))
        ∧ convertCell "SNOWDEPTH" c = .ok (.vfloat (.num q))) := by
  obtain ⟨f, d⟩ := c
  constructor
  · intro h
    simp only at h
    subst h
    rfl
  · intro h
    simp only at h
    subst h
    exact ⟨rfl, rfl, rfl, rfl, rfl, rfl, rfl⟩

/-- Witness for claim C8, at a cell whose text parses as the float 3 and
as the date 7. -/
theorem c8_fixed_field_conversions_w :
    convertCell "DAY" { asFloat := .ok (.num 3), asDate := .ok 7 } =
      .ok (.vdate 7)
    ∧ convertCell "IRRAD" { asFloat := .ok (.num 3), asDate := .ok 7 } =
      .ok (.vfloat (.num (3 * 1000)))
    ∧ convertCell "RAIN" { asFloat := .ok (.num 3), asDate := .ok 7 } =
      .ok (.vfloat (.num (3 / 10)))
    ∧ convertCell "TMIN" { asFloat := .ok (.num 3), asDate := .ok 7 } =
      .ok (.vfloat (.num 3)) := by
  have h := c8_fixed_field_conversions
    { asFloat := .ok (.num 3), asDate := .ok 7 } 3 7
  exact ⟨h.1 rfl, (h.2 rfl).1, (h.2 rfl).2.1, (h.2 rfl).2.2.1⟩

/-- Claim C5, counterexample: the sunshine-mode window `0 < IRRAD < 24` is
tested against the value already multiplied by 1000, not against the raw
value: with sunshine mode on, a raw IRRAD of 8.5 becomes 8500 before the
test, the Angstrom correction (which here would return 777) is skipped,
and 8500 is stored, so the raw value 8.5 is not treated as sunshine
hours. -/
theorem c5_raw_irrad_8p5_not_corrected :
    read_observations stSun extAng777
      { header := ["DAY", "IRRAD"],
        rows := [[dayCell 20100101, numCell (17/2)]] } =
    .ok [(.vdate 20100101,
          { LAT := .num 52, LON := .num 5, ELEV := .num 10,
            fields := [("DAY", .vdate 20100101),
                       ("IRRAD", .vfloat (.num 8500)),
                       ("E0", .vfloat .nan), ("ES0", .vfloat .nan),
                       ("ET0", .vfloat .nan)] })]
    ∧ PFloat.num 8500 ≠ PFloat.num 777 := by
  have hmul : pyMul (.num (17/2)) (.num 1000) = .num 8500 := by
    show PFloat.num (17/2 * 1000) = PFloat.num 8500
    norm_num
  have hlt1 : pyLt (.num 0) (.num 8500) = true := by
    show decide ((0:ℚ) < 8500) = true
    rw [decide_eq_true_eq]
    norm_num
  have hlt2 : pyLt (.num 8500) (.num 24) = false := by
    show decide ((8500:ℚ) < 24) = false
    rw [decide_eq_false_iff_not]
    norm_num
  have h0 : convertLabels (delEmpty (dictOfZip
      (translateHeader ["DAY", "IRRAD"]) [dayCell 20100101, numCell (17/2)])) =
      .ok [("DAY", .vdate 20100101),
           ("IRRAD", .vfloat (pyMul (.num (17/2)) (.num 1000)))] := rfl
  have hconv : convertLabels (delEmpty (dictOfZip
      (translateHeader ["DAY", "IRRAD"]) [dayCell 20100101, numCell (17/2)])) =
      .ok [("DAY", .vdate 20100101), ("IRRAD", .vfloat (.num 8500))] := by
    rw [h0, hmul]
  have hsun : sunshineCorrect stSun extAng777
      [("DAY", .vdate 20100101), ("IRRAD", .vfloat (.num 8500))] =
      .ok [("DAY", .vdate 20100101), ("IRRAD", .vfloat (.num 8500))] := by
    simp [sunshineCorrect, stSun, stNoSun, alistGet, hlt1, hlt2]
  have hrow : processRow stSun extAng777 (translateHeader ["DAY", "IRRAD"])
      [dayCell 20100101, numCell (17/2)] =
      .ok (.vdate 20100101,
        { LAT := .num 52, LON := .num 5, ELEV := .num 10,
          fields := [("DAY", .vdate 20100101), ("IRRAD", .vfloat (.num 8500)),
                     ("E0", .vfloat .nan), ("ES0", .vfloat .nan),
                     ("ET0", .vfloat .nan)] }) := by
    simp only [processRow, hconv, hsun]
    rfl
  constructor
  · simp [read_observations, readObsRows, hrow]
  · intro h
    have := PFloat.num.inj h
    norm_num at this

/-- Claim C5, amended: with sunshine mode on, the Angstrom correction with
(date, latitude, value, angstA, angstB) replaces IRRAD exactly when the
already-converted value (raw times 1000) lies strictly between 0 and 24;
for converted values outside that window, or with sunshine mode off, the
converted value is stored unchanged. -/
theorem c5_window_on_converted_value (st : Meta) (ext : Externals)
    (d : List (String × Value)) (q : ℚ) (day : Value)
    (hI : alistGet d "IRRAD" = some (.vfloat (.num q))) :
    (st.has_sunshine = true → 0 < q → q < 24 → alistGet d "DAY" = some day →
      sunshineCorrect st ext d =
        (match ext.angstrom day st.latitude (.num q) st.angstA st.angstB with
         | .error e => .error e
         | .ok r => .ok (dictSet d "IRRAD" (.vfloat r))))
    ∧ (¬(0 < q ∧ q < 24) → sunshineCorrect st ext d = .ok d)
    ∧ (st.has_sunshine = false → sunshineCorrect st ext d = .ok d) := by
  refine ⟨?_, ?_, ?_⟩
  · intro hs h0 h24 hd
    have e1 : pyLt (.num 0) (.num q) = true := by
      show decide ((0:ℚ) < q) = true
      rw [decide_eq_true_eq]
      exact h0
    have e2 : pyLt (.num q) (.num 24) = true := by
      show decide (q < (24:ℚ)) = true
      rw [decide_eq_true_eq]
      exact h24
    simp [sunshineCorrect, hs, hI, hd, e1, e2]
  · intro hnot
    by_cases hs : st.has_sunshine
    · have hb : (pyLt (.num 0) (.num q) && pyLt (.num q) (.num 24)) = false := by
        rcases not_and_or.mp hnot with h | h
        · have e : pyLt (.num 0) (.num q) = false := by
            show decide ((0:ℚ) < q) = false
            rw [decide_eq_false_iff_not]
            exact h
          rw [e, Bool.false_and]
        · have e : pyLt (.num q) (.num 24) = false := by
            show decide (q < (24:ℚ)) = false
            rw [decide_eq_false_iff_not]
            exact h
          rw [e, Bool.and_false]
      simp [sunshineCorrect, hs, hI, hb]
    · simp [sunshineCorrect, hs]
  · intro hs
    simp [sunshineCorrect, hs]

/-- Witness for the amended claim C5: a converted IRRAD of 12 under
sunshine mode goes through the Angstrom branch, a converted IRRAD of 8500
does not, and with sunshine mode off nothing is corrected. -/
theorem c5_window_on_converted_value_w :
    sunshineCorrect stSun extAng777
      [("DAY", .vdate 1), ("IRRAD", .vfloat (.num 12))] =
      (match extAng777.angstrom (.vdate 1) stSun.latitude (.num 12)
          stSun.angstA stSun.angstB with
       | .error e => .error e
       | .ok r => .ok (dictSet [("DAY", .vdate 1), ("IRRAD", .vfloat (.num 12))]
           "IRRAD" (.vfloat r)))
    ∧ sunshineCorrect stSun extAng777
        [("DAY", .vdate 1), ("IRRAD", .vfloat (.num 8500))] =
      .ok [("DAY", .vdate 1), ("IRRAD", .vfloat (.num 8500))]
    ∧ sunshineCorrect stNoSun extAng777
        [("DAY", .vdate 1), ("IRRAD", .vfloat (.num 12))] =
      .ok [("DAY", .vdate 1), ("IRRAD", .vfloat (.num 12))] :=
  ⟨(c5_window_on_converted_value stSun extAng777
      [("DAY", .vdate 1), ("IRRAD", .vfloat (.num 12))] 12 (.vdate 1) rfl).1
      rfl (by norm_num) (by norm_num) rfl,
   (c5_window_on_converted_value stSun extAng777
      [("DAY", .vdate 1), ("IRRAD", .vfloat (.num 8500))] 8500 (.vdate 1) rfl).2.1
      (by norm_num),
   (c5_window_on_converted_value stNoSun extAng777
      [("DAY", .vdate 1), ("IRRAD", .vfloat (.num 12))] 12 (.vdate 1) rfl).2.2
      rfl⟩

/-- Claim C9: a data row whose DAY cell fails to parse under the
configured date format makes the conversion loop raise a ValueError, which
the row handler catches: the row contributes nothing to the store and the
remaining rows are processed exactly as if the row were absent. -/
theorem c9_unparsable_day_skipped (st : Meta) (ext : Externals)
    (header : List String) (r : List Cell) (rest : List (List Cell)) (c : Cell)
    (hday : ("DAY", c) ∈ delEmpty (dictOfZip (translateHeader header) r))
    (hfail : c.asDate = .error ()) :
    read_observations st ext { header := header, rows := r :: rest } =
      read_observations st ext { header := header, rows := rest } := by
  have hlab : ∀ kc ∈ delEmpty (dictOfZip (translateHeader header) r),
      kc.1 ∈ canonicalLabels := by
    intro kc hmem
    obtain ⟨hin, hne⟩ := List.mem_filter.mp hmem
    have hk : kc.1 ∈ translateHeader header :=
      dictOfZip_mem_keys (translateHeader header) r kc.1 kc.2 hin
    rcases List.mem_map.mp hk with ⟨item, hitem, heq⟩
    rcases translateItem_cases item with h0 | h0
    · exact absurd (heq ▸ h0) (of_decide_eq_true hne)
    · exact heq ▸ h0
  have hcl := convertLabels_day_fail _ c hlab hday hfail
  have hpr : processRow st ext (translateHeader header) r =
      .error .valueError := by
    simp only [processRow, hcl]
  simp [read_observations, readObsRows, hpr]

/-- Witness for claim C9: a two-row file whose first row has the
unparsable date text yields the same store as the file without that
row. -/
theorem c9_unparsable_day_skipped_w :
    read_observations stNoSun extNaN
      { header := ["DAY", "TMIN"],
        rows := [[badDateCell, numCell 2], [dayCell 20100102, numCell 3]] } =
    read_observations stNoSun extNaN
      { header := ["DAY", "TMIN"], rows := [[dayCell 20100102, numCell 3]] } :=
  c9_unparsable_day_skipped stNoSun extNaN ["DAY", "TMIN"]
    [badDateCell, numCell 2] [[dayCell 20100102, numCell 3]] badDateCell
    (by decide) rfl

end PCSE
